import Mathlib

/-
  Verification of the henry-enterprise-iam authentication and routing core.

  Part 1 models the phase50 employee portal (src/phase50-portal): the
  two-step LDAP + TOTP authentication flow of app/auth.py and the Flask
  session handling of app/routes.py.  Part 2 models the phase60 portal
  router (src/phase60/portal-router): role extraction, primary-role
  selection and request forwarding of router.py and utils/auth.py.

  External collaborators (the LDAP directory, the TOTP secret store and
  verifier, the backend dashboards) are modelled as explicit environment
  records; everything else is translated directly from the Python source.
-/

deriving instance DecidableEq for Except

namespace Py

/-
  Models of the Python str methods the portal code uses, defined by
  structural recursion over the character list of a string so that every
  concrete instance evaluates inside the kernel.
-/

/-- Python str.strip with no argument on a character list: remove leading
and trailing whitespace. -/
def stripList (cs : List Char) : List Char :=
  ((cs.dropWhile Char.isWhitespace).reverse.dropWhile Char.isWhitespace).reverse

/-- Python str.strip with no argument. -/
def strip (s : String) : String := String.mk (stripList s.data)

/-- Python str.lower (the portal only lower-cases ASCII role names). -/
def lower (s : String) : String := String.mk (s.data.map Char.toLower)

/-- Python str.split on a one-character separator, over character lists:
splits at every occurrence and keeps empty fields, so the result is always
non-empty. -/
def splitList (sep : Char) : List Char → List (List Char)
  | [] => [[]]
  | c :: cs =>
    if c = sep then [] :: splitList sep cs
    else
      match splitList sep cs with
      | g :: gs => (c :: g) :: gs
      | [] => [[c]]

/-- Python str.split on a one-character separator. -/
def split (sep : Char) (s : String) : List String :=
  (splitList sep s.data).map String.mk

/-- Python str.replace of a one-character pattern by the empty string:
removes every occurrence of the character. -/
def removeAll (c : Char) (s : String) : String :=
  String.mk (s.data.filter (fun x => x != c))

/-- Python str.startswith on a one-character pattern. -/
def startsWithChar (c : Char) (s : String) : Bool :=
  match s.data with
  | [] => false
  | x :: _ => x == c

/-- Python membership test of a one-character substring. -/
def containsChar (c : Char) (s : String) : Bool := s.data.contains c

/-- Python str.isdigit: non-empty and every character a digit. -/
def isdigit (s : String) : Bool := !s.data.isEmpty && s.data.all Char.isDigit

/-- Python len on a string. -/
def len (s : String) : Nat := s.data.length

end Py

namespace Portal

/-- Department to required LDAP group, from Config.DEPARTMENT_GROUPS
(src/phase50-portal/config.py lines 16-21). -/
def DEPARTMENT_GROUPS : List (String × String) :=
  [("HR", "hr"), ("IT Support", "it_support"), ("Sales", "sales"), ("Admin", "admins")]

/-- Department to dashboard path, from Config.DEPARTMENT_DASHBOARDS
(src/phase50-portal/config.py lines 23-28). -/
def DEPARTMENT_DASHBOARDS : List (String × String) :=
  [("HR", "/hr/dashboard"), ("IT Support", "/it/dashboard"),
   ("Sales", "/sales/dashboard"), ("Admin", "/admin/dashboard")]

/-- Flask PERMANENT_SESSION_LIFETIME (8 hours), in seconds
(src/phase50-portal/config.py line 8). -/
def PERMANENT_SESSION_LIFETIME : Nat := 8 * 3600

/-- A directory entry as the LDAP search of authenticate_ldap returns it:
optional cn and mail (the code probes them with hasattr and falls back to
defaults), and the raw memberOf list of group distinguished names.  An entry
without a memberOf attribute is modelled by an empty list, matching the code
which then builds an empty group list. -/
structure LdapEntry where
  cn : Option String
  mail : Option String
  memberOf : List String
deriving Repr, DecidableEq

/-- The directory, as consumed by authenticate_ldap: whether a bind as the
given username with the given password succeeds, and the search result for
the username.  The now field is the datetime.now().isoformat() value used
for the timestamp of the returned user data. -/
structure LdapEnv where
  bindOk : String → String → Bool
  entry : String → Option LdapEntry
  now : String

/-- Outcomes of authenticate_ldap (src/phase50-portal/app/auth.py lines
21-110).  ldapError is the AuthenticationError raised from the LDAPException
handler: with auto_bind=True a failed bind raises LDAPBindError, so wrong
credentials surface through this path.  genericError is the catch-all
Exception handler. -/
inductive AuthError where
  | ldapError
  | userNotFound
  | invalidDepartment
  | unauthorized
  | genericError
deriving Repr, DecidableEq

/-- Leaf group name extracted from a group DN by
str(group_dn).split(chr(44))[0].split(chr(61))[1] (auth.py line 64);
none models the IndexError raised when the first RDN has no equals sign,
which the catch-all handler turns into a generic AuthenticationError. -/
def parseGroupName (dn : String) : Option String :=
  match Py.split '=' ((Py.split ',' dn).headD dn) with
  | _ :: g :: _ => some g
  | _ => none

/-- The user-data dictionary returned by a successful authenticate_ldap
(auth.py lines 92-98). -/
structure UserData where
  username : String
  full_name : String
  email : String
  groups : List String
  timestamp : String
deriving Repr, DecidableEq

/-- authenticate_ldap (src/phase50-portal/app/auth.py lines 21-110): bind
with the supplied credentials (a bind failure raises LDAPException and is
reported as ldapError), search for the user entry, extract the group names
from memberOf, look up the required group for the selected department, and
require it to be among the user's groups. -/
def authenticate_ldap (username password selected_department : String)
    (env : LdapEnv) : Except AuthError UserData :=
  if ¬ env.bindOk username password then .error .ldapError
  else
    match env.entry username with
    | none => .error .userNotFound
    | some entry =>
      let full_name := entry.cn.getD username
      let email := entry.mail.getD (username ++ "@henry-iam.internal")
      match entry.memberOf.mapM parseGroupName with
      | none => .error .genericError
      | some user_groups =>
        match DEPARTMENT_GROUPS.lookup selected_department with
        | none => .error .invalidDepartment
        | some required_group =>
          if required_group ∈ user_groups then
            .ok ⟨username, full_name, email, user_groups, env.now⟩
          else .error .unauthorized

/-- Outcomes of verify_totp_code (auth.py lines 112-171), one per distinct
AuthenticationError raised: no code supplied, code not six digits after
normalization, totp_secrets.py missing (ImportError), no secret for the
user, and code rejected by the TOTP verifier. -/
inductive TotpError where
  | emptyCode
  | badFormat
  | notConfigured
  | notEnrolled
  | wrongCode
deriving Repr, DecidableEq

/-- The TOTP subsystem as consumed by verify_totp_code: whether
totp_secrets.py imports, the per-user secret lookup (get_totp_secret), and
the pyotp verifier pyotp.TOTP(secret).verify(code, valid_window=1) at the
current instant; the current time is folded into the verify oracle. -/
structure TotpEnv where
  secretsAvailable : Bool
  secret : String → Option String
  verify : String → String → Bool

/-- Code normalization of auth.py line 128:
totp_code.strip().replace(space, empty).replace(dash, empty). -/
def normalizeCode (code : String) : String :=
  Py.removeAll '-' (Py.removeAll ' ' (Py.strip code))

/-- verify_totp_code (src/phase50-portal/app/auth.py lines 112-171):
reject an empty code, normalize, require exactly six digits, require the
secret store to be importable, look up the secret (a missing or empty
secret means not enrolled), and verify the code against the secret. -/
def verify_totp_code (env : TotpEnv) (username totp_code : String) :
    Except TotpError Unit :=
  if totp_code = "" then .error .emptyCode
  else
    let c := normalizeCode totp_code
    if ¬ (Py.isdigit c = true ∧ Py.len c = 6) then .error .badFormat
    else if ¬ env.secretsAvailable then .error .notConfigured
    else
      match env.secret username with
      | none => .error .notEnrolled
      | some s =>
        if s = "" then .error .notEnrolled
        else if env.verify s c then .ok () else .error .wrongCode

/-- The pending_auth record stored in the Flask session by employee_login
(routes.py lines 67-74). -/
structure PendingAuth where
  username : String
  full_name : String
  email : String
  department : String
  groups : List String
  timestamp : String
deriving Repr, DecidableEq

/-- The user record stored in the Flask session by totp_verify
(routes.py lines 113-122), mirroring app/models.py User.to_dict. -/
structure SessionUser where
  username : String
  full_name : String
  email : String
  department : String
  groups : List String
deriving Repr, DecidableEq

/-- The two session keys the routes mutate: pending_auth and user. -/
structure Session where
  pending_auth : Option PendingAuth
  user : Option SessionUser
deriving Repr, DecidableEq

/-- A fresh Flask session holds neither key. -/
def initialSession : Session := ⟨none, none⟩

/-- Combined external environment of the portal routes. -/
structure Env where
  ldap : LdapEnv
  totp : TotpEnv

/-- employee_login on GET (routes.py lines 39-50, 90): an authenticated
user is redirected with the session untouched; otherwise any pending
authentication is cleared and the login form is rendered. -/
def employee_login_get (s : Session) : Session :=
  if s.user.isSome then s else { s with pending_auth := none }

/-- employee_login on POST (src/phase50-portal/app/routes.py lines 39-88):
an authenticated user is redirected with the session untouched; otherwise
the pending record is cleared, the stripped username and the raw password
and department must be non-empty, authenticate_ldap is run, and on success
a pending_auth record is stored; on AuthenticationError the form is
re-rendered with the session left as cleared. -/
def employee_login_post (env : Env) (s : Session)
    (username password department : String) : Session :=
  if s.user.isSome then s
  else
    let s1 : Session := { s with pending_auth := none }
    let u := Py.strip username
    if u = "" ∨ password = "" ∨ department = "" then s1
    else
      match authenticate_ldap u password department env.ldap with
      | .ok ud =>
        let p : PendingAuth :=
          ⟨ud.username, ud.full_name, ud.email, department, ud.groups, ud.timestamp⟩
        { s1 with pending_auth := some p }
      | .error _ => s1

/-- totp_verify on POST (src/phase50-portal/app/routes.py lines 92-139):
without a pending record the caller is redirected to the login page with
the session untouched; with one, the stripped code must be non-empty, and
verify_totp_code decides: on success the pending record is popped and the
full user session is created from it; on AuthenticationError the form is
re-rendered and the session is left untouched. -/
def totp_verify_post (env : Env) (s : Session) (totp_code : String) : Session :=
  match s.pending_auth with
  | none => s
  | some pending =>
    let code := Py.strip totp_code
    if code = "" then s
    else
      match verify_totp_code env.totp pending.username code with
      | .ok _ =>
        let u : SessionUser :=
          ⟨pending.username, pending.full_name, pending.email,
           pending.department, pending.groups⟩
        ⟨none, some u⟩
      | .error _ => s

/-- logout (routes.py lines 203-211): pops both session keys. -/
def logout_route (_s : Session) : Session := ⟨none, none⟩

/-- The session-mutating requests a client can issue against the portal. -/
inductive Event where
  | loginGet
  | loginPost (username password department : String)
  | totpGet
  | totpPost (totp_code : String)
  | logout
deriving Repr, DecidableEq

/-- One request-response cycle acting on the session.  totp_verify on GET
only reads the session. -/
def step (env : Env) (s : Session) : Event → Session
  | .loginGet => employee_login_get s
  | .loginPost u p d => employee_login_post env s u p d
  | .totpGet => s
  | .totpPost c => totp_verify_post env s c
  | .logout => logout_route s

/-- Run a sequence of requests from a given session state. -/
def run (env : Env) (s : Session) (events : List Event) : Session :=
  events.foldl (step env) s

end Portal

namespace Router

/-- Role to upstream service mapping, from ROLE_SERVICES
(src/phase60/portal-router/router.py lines 18-23). -/
def ROLE_SERVICES : List (String × String) :=
  [("admin", "http://admin-dashboard:8504"), ("hr", "http://hr-dashboard:8501"),
   ("it_support", "http://it-dashboard:8502"), ("sales", "http://sales-dashboard:8503")]

/-- Role precedence, highest priority first, from ROLE_PRECEDENCE
(router.py line 26). -/
def ROLE_PRECEDENCE : List String := ["admin", "hr", "it_support", "sales"]

/-- Drop leading whitespace.  json.loads skips exactly the characters
space, tab, newline and carriage return between tokens, the same four
characters Char.isWhitespace accepts. -/
def skipWs : List Char → List Char
  | [] => []
  | c :: cs => if c.isWhitespace then skipWs cs else c :: cs

/-- A decoded JSON value, as json.loads produces it.  The numeric
constants NaN, Infinity and -Infinity, which json.loads accepts by
default, are numbers; numeric content is not recorded because the role
extraction only ever distinguishes strings from non-strings. -/
inductive JsonVal where
  | str (s : String)
  | num
  | bool (b : Bool)
  | null
  | arr (items : List JsonVal)
  | obj (members : List (String × JsonVal))

/-- Value of one hexadecimal digit, as accepted inside a JSON unicode
escape. -/
def hexVal : Char → Option Nat
  | c =>
    if c.isDigit then some (c.toNat - 48)
    else if 'a' ≤ c ∧ c ≤ 'f' then some (c.toNat - 87)
    else if 'A' ≤ c ∧ c ≤ 'F' then some (c.toNat - 55)
    else none

/-- Read the remainder of a JSON string literal after the opening quote,
accumulating into acc; returns the string and the unconsumed input, or
none where json.loads raises JSONDecodeError: an unterminated literal, an
invalid escape, a unicode escape without four hexadecimal digits, or (in
the default strict mode) a raw control character below 0x20.  A high
surrogate escape followed by a low surrogate escape is combined into one
scalar as json.loads does; a lone surrogate, which json.loads keeps but a
Lean string cannot represent, is mapped to the NUL character — no claim
depends on the decoded content of lone surrogates, only on the success of
the parse. -/
def readJsonString : Nat → List Char → List Char → Option (String × List Char)
  | 0, _, _ => none
  | _, [], _ => none
  | fuel + 1, c :: cs, acc =>
    if c = '"' then some (String.mk acc.reverse, cs)
    else if c = '\\' then
      match cs with
      | [] => none
      | e :: cs2 =>
        if e = '"' ∨ e = '\\' ∨ e = '/' then readJsonString fuel cs2 (e :: acc)
        else if e = 'b' then readJsonString fuel cs2 ('\x08' :: acc)
        else if e = 'f' then readJsonString fuel cs2 ('\x0c' :: acc)
        else if e = 'n' then readJsonString fuel cs2 ('\n' :: acc)
        else if e = 'r' then readJsonString fuel cs2 ('\r' :: acc)
        else if e = 't' then readJsonString fuel cs2 ('\t' :: acc)
        else if e = 'u' then
          match cs2 with
          | h1 :: h2 :: h3 :: h4 :: cs3 =>
            match hexVal h1, hexVal h2, hexVal h3, hexVal h4 with
            | some a, some b, some c1, some d =>
              let hi := ((a * 16 + b) * 16 + c1) * 16 + d
              if 0xd800 ≤ hi ∧ hi ≤ 0xdbff then
                match cs3 with
                | '\\' :: 'u' :: g1 :: g2 :: g3 :: g4 :: cs4 =>
                  match hexVal g1, hexVal g2, hexVal g3, hexVal g4 with
                  | some a2, some b2, some c2, some d2 =>
                    let lo := ((a2 * 16 + b2) * 16 + c2) * 16 + d2
                    if 0xdc00 ≤ lo ∧ lo ≤ 0xdfff then
                      readJsonString fuel cs4
                        (Char.ofNat (0x10000 + (hi - 0xd800) * 0x400 + (lo - 0xdc00)) :: acc)
                    else
                      readJsonString fuel ('\\' :: 'u' :: g1 :: g2 :: g3 :: g4 :: cs4)
                        (Char.ofNat hi :: acc)
                  | _, _, _, _ => none
                | cs3x => readJsonString fuel cs3x (Char.ofNat hi :: acc)
              else
                readJsonString fuel cs3 (Char.ofNat hi :: acc)
            | _, _, _, _ => none
          | _ => none
        else none
    else if c.toNat < 32 then none
    else readJsonString fuel cs (c :: acc)

/-- Integer part of a JSON number: a single zero, or a nonzero digit and
all following digits; none when no digit is present. -/
def readJsonInt : List Char → Option (List Char)
  | '0' :: cs => some cs
  | d :: cs => if d.isDigit then some (cs.dropWhile Char.isDigit) else none
  | [] => none

/-- After the exponent letter of a JSON number: an optional sign then at
least one digit; with no digit the exponent is not part of the number and
the input from the letter on (the second argument) is left unconsumed. -/
def readJsonExp : List Char → List Char → List Char
  | '+' :: cs, orig => if cs.head?.any Char.isDigit then cs.dropWhile Char.isDigit else orig
  | '-' :: cs, orig => if cs.head?.any Char.isDigit then cs.dropWhile Char.isDigit else orig
  | cs, orig => if cs.head?.any Char.isDigit then cs.dropWhile Char.isDigit else orig

/-- Consume a JSON number starting at the head of the input, returning the
unconsumed remainder, with the maximal-munch semantics of the json module
number pattern: an optional minus, an integer part that is a single zero
or a nonzero digit followed by digits, an optional fraction of a dot and
at least one digit, and an optional exponent with at least one digit.
none where no number starts here; trailing garbage such as a second digit
after a leading zero is left unconsumed for the delimiter check of the
surrounding array or document to reject, as json.loads does. -/
def readNumberTail (cs0 : List Char) : Option (List Char) :=
  let intRest :=
    match cs0 with
    | '-' :: cs1 => readJsonInt cs1
    | cs1 => readJsonInt cs1
  match intRest with
  | none => none
  | some cs2 =>
    let cs3 :=
      match cs2 with
      | '.' :: d :: cs4 => if d.isDigit then (d :: cs4).dropWhile Char.isDigit else cs2
      | _ => cs2
    match cs3 with
    | 'e' :: cs5 => some (readJsonExp cs5 cs3)
    | 'E' :: cs5 => some (readJsonExp cs5 cs3)
    | _ => some cs3

mutual

/-- Parse one JSON value at the head of the (not whitespace-led) input,
per the json module grammar: a string, an array, an object, the literals
true, false and null, the constants NaN, Infinity and -Infinity, or a
number.  The fuel only bounds the recursion into nested values and
between items; every call consumes input, so the generous fuel supplied
by jsonLoads never runs out before the input does. -/
def parseJsonValue : Nat → List Char → Option (JsonVal × List Char)
  | 0, _ => none
  | fuel + 1, cs =>
    match cs with
    | [] => none
    | c :: rest =>
      if c = '"' then
        match readJsonString (rest.length + 1) rest [] with
        | some (s, r) => some (.str s, r)
        | none => none
      else if c = '[' then
        match skipWs rest with
        | ']' :: r => some (.arr [], r)
        | cs2 =>
          match parseArrayItems fuel cs2 with
          | some (vs, r) => some (.arr vs, r)
          | none => none
      else if c = '{' then
        match skipWs rest with
        | '}' :: r => some (.obj [], r)
        | cs2 =>
          match parseObjectItems fuel cs2 with
          | some (ms, r) => some (.obj ms, r)
          | none => none
      else if c = 't' then
        match rest with
        | 'r' :: 'u' :: 'e' :: r => some (.bool true, r)
        | _ => none
      else if c = 'f' then
        match rest with
        | 'a' :: 'l' :: 's' :: 'e' :: r => some (.bool false, r)
        | _ => none
      else if c = 'n' then
        match rest with
        | 'u' :: 'l' :: 'l' :: r => some (.null, r)
        | _ => none
      else if c = 'N' then
        match rest with
        | 'a' :: 'N' :: r => some (.num, r)
        | _ => none
      else if c = 'I' then
        match rest with
        | 'n' :: 'f' :: 'i' :: 'n' :: 'i' :: 't' :: 'y' :: r => some (.num, r)
        | _ => none
      else if c = '-' then
        match rest with
        | 'I' :: 'n' :: 'f' :: 'i' :: 'n' :: 'i' :: 't' :: 'y' :: r => some (.num, r)
        | _ =>
          match readNumberTail cs with
          | some r => some (.num, r)
          | none => none
      else
        match readNumberTail cs with
        | some r => some (.num, r)
        | none => none

/-- One or more comma-separated array items followed by the closing
bracket; the input is whitespace-led-free and non-empty-array. -/
def parseArrayItems : Nat → List Char → Option (List JsonVal × List Char)
  | 0, _ => none
  | fuel + 1, cs =>
    match parseJsonValue fuel cs with
    | none => none
    | some (v, rest) =>
      match skipWs rest with
      | ']' :: r => some ([v], r)
      | ',' :: r =>
        match parseArrayItems fuel (skipWs r) with
        | some (vs, r2) => some (v :: vs, r2)
        | none => none
      | _ => none

/-- One or more comma-separated string-keyed members followed by the
closing brace; a non-string key is the JSONDecodeError json.loads raises
for a property name not in double quotes. -/
def parseObjectItems : Nat → List Char → Option (List (String × JsonVal) × List Char)
  | 0, _ => none
  | fuel + 1, cs =>
    match cs with
    | '"' :: rest =>
      match readJsonString (rest.length + 1) rest [] with
      | none => none
      | some (k, rest2) =>
        match skipWs rest2 with
        | ':' :: rest3 =>
          match parseJsonValue fuel (skipWs rest3) with
          | none => none
          | some (v, rest4) =>
            match skipWs rest4 with
            | '}' :: r => some ([(k, v)], r)
            | ',' :: r =>
              match parseObjectItems fuel (skipWs r) with
              | some (ms, r2) => some ((k, v) :: ms, r2)
              | none => none
            | _ => none
        | _ => none
    | _ => none

end

/-- Model of json.loads: skip leading whitespace, parse one value, skip
trailing whitespace, and require the input to be exhausted; none models
json.JSONDecodeError.  The fuel bound of four units per input character
plus a constant exceeds the total number of parser calls, each chain of
four calls consuming at least one character, so fuel exhaustion never
decides an outcome. -/
def jsonLoads (s : String) : Option JsonVal :=
  match parseJsonValue (s.data.length * 4 + 8) (skipWs s.data) with
  | some (v, rest) => if skipWs rest = [] then some v else none
  | none => none

/-- Per-entry normalization used in both branches of extract_roles
(utils/auth.py lines 30 and 36): keep entries whose strip is non-empty,
as strip().lower(). -/
def normEntry (role : String) : Option String :=
  if Py.strip role = "" then none else some (Py.lower (Py.strip role))

/-- An exception escaping extract_roles uncaught: only JSONDecodeError is
caught there, so iterating a decoded value whose element has no strip
method raises AttributeError out of the function, and iterating a
non-iterable decoded value raises TypeError. -/
inductive PyExc where
  | attributeError
  | typeError
deriving Repr, DecidableEq

/-- The role list comprehension of utils/auth.py line 30 over the decoded
items: each string element is stripped, kept when non-empty and
lower-cased; the first non-string element raises AttributeError, since
only str carries a strip method. -/
def rolesComp : List JsonVal → Except PyExc (List String)
  | [] => .ok []
  | JsonVal.str role :: rest =>
    match normEntry role, rolesComp rest with
    | _, .error e => .error e
    | some v, .ok tail => .ok (v :: tail)
    | none, .ok tail => .ok tail
  | _ :: _ => .error .attributeError

/-- extract_roles (src/phase60/portal-router/utils/auth.py lines 11-37):
an empty header yields no roles; a header starting with an opening bracket
is fed to json.loads, with JSONDecodeError caught and yielding no roles;
otherwise the header is split on commas.  Entries are stripped,
lower-cased and kept when non-blank.  A successfully decoded value is
iterated by the comprehension: since the header starts with the opening
bracket, a successful decode is always an array, but the unreachable
shapes are modelled as Python would run them — a string iterates its
characters, a dict its keys, and a number, boolean or null raises
TypeError — and a non-string element raises AttributeError, which no
handler in the router catches. -/
def extract_roles (roles_header : String) : Except PyExc (List String) :=
  if roles_header = "" then .ok []
  else if Py.startsWithChar '[' roles_header then
    match jsonLoads roles_header with
    | none => .ok []
    | some (JsonVal.arr items) => rolesComp items
    | some (JsonVal.str s) => rolesComp (s.data.map (fun c => JsonVal.str (String.mk [c])))
    | some (JsonVal.obj members) => rolesComp (members.map (fun m => JsonVal.str m.1))
    | some _ => .error .typeError
  else .ok ((Py.split ',' roles_header).filterMap normEntry)

/-- The identity headers the router consumes, as injected by OAuth2-Proxy:
X-Auth-Request-Email, X-Auth-Request-User, X-Auth-Request-Groups.  none is
an absent header; Flask headers.get of an absent header returns None. -/
structure Headers where
  email : Option String
  user : Option String
  groups : Option String
deriving Repr, DecidableEq

/-- validate_headers (utils/auth.py lines 39-64): both required headers
must be present and non-empty, and the email must contain an at sign. -/
def validate_headers (h : Headers) : Bool :=
  (match h.email with | some e => e != "" | none => false) &&
  (match h.user with | some u => u != "" | none => false) &&
  Py.containsChar '@' (h.email.getD "")

/-- get_primary_role (src/phase60/portal-router/utils/auth.py lines
66-84): walk the precedence list in order and return the first role that
the subject holds; none when no precedence entry is held. -/
def get_primary_role (roles : List String) : List String → Option String
  | [] => none
  | role :: rest => if role ∈ roles then some role else get_primary_role roles rest

/-- The authorization outcome of route_to_dashboard (router.py lines
53-117), before any forwarding: the distinct terminal responses of the
routing decision, the forwarding target on success, and the unhandled
exception escaping the handler — the extract_roles call at router.py line
76 sits outside the try block, so an exception it raises propagates out
and Flask answers with its own 500 internal-server-error response. -/
inductive RouteOutcome where
  | unauthorized
  | noRolesAssigned
  | unrecognizedRole
  | serviceConfigError
  | unhandledException
  | forward (target primary_role : String) (roles : List String)
deriving Repr, DecidableEq

/-- route_to_dashboard, decision part (src/phase60/portal-router/router.py
lines 53-117): reject invalid headers with 401; extract roles from the
groups header (absent header read as empty string), an uncaught exception
escaping the handler; an empty role list is 403 no-roles; no primary role
under ROLE_PRECEDENCE is 403 unrecognized; a primary role without a
configured service is 500; otherwise forward to the configured target. -/
def route_to_dashboard (h : Headers) : RouteOutcome :=
  if ¬ validate_headers h then .unauthorized
  else
    match extract_roles (h.groups.getD "") with
    | .error _ => .unhandledException
    | .ok roles =>
      if roles = [] then .noRolesAssigned
      else
        match get_primary_role roles ROLE_PRECEDENCE with
        | none => .unrecognizedRole
        | some primary_role =>
          match ROLE_SERVICES.lookup primary_role with
          | none => .serviceConfigError
          | some target => .forward target primary_role roles

/-- What a single call of requests.request against the backend can come
back with: a response with a status code, a ConnectionError, a Timeout, or
any other exception. -/
inductive BackendResult where
  | ok (status : Nat)
  | connectionError
  | timeout
  | otherError
deriving Repr, DecidableEq

/-- The forwarded request as built in router.py lines 121-142: target URL
joined with the path, redirects not followed, and a 30-second timeout. -/
structure ForwardRequest where
  url : String
  timeoutSeconds : Nat
  allowRedirects : Bool
deriving Repr, DecidableEq

/-- Request construction of router.py lines 121 and 133-142. -/
def buildForwardRequest (target_service path : String) : ForwardRequest :=
  ⟨target_service ++ "/" ++ path, 30, false⟩

/-- Status of the response relayed to the client, per the try-except of
router.py lines 120-184: a backend response is relayed with its own status;
ConnectionError yields 503, Timeout yields 504, anything else 500. -/
def forwardStatus : BackendResult → Nat
  | .ok status => status
  | .connectionError => 503
  | .timeout => 504
  | .otherError => 500

/-- Full route_to_dashboard (router.py lines 53-184) reduced to the HTTP
status returned to the client.  The backend collaborator is indexed by the
forwarded request and by an attempt counter; the source makes exactly one
requests.request call inside its try block, so only attempt zero is ever
consulted. -/
def routeAndForward (h : Headers) (path : String)
    (backend : ForwardRequest → Nat → BackendResult) : Nat :=
  match route_to_dashboard h with
  | .unauthorized => 401
  | .noRolesAssigned => 403
  | .unrecognizedRole => 403
  | .serviceConfigError => 500
  | .unhandledException => 500
  | .forward target _ _ => forwardStatus (backend (buildForwardRequest target path) 0)

end Router

open Portal Router

/-- A concrete directory for witnesses: alice binds with password pw1 and
is a member of the hr group only. -/
def ldapEnvW : LdapEnv :=
  ⟨fun u p => u == "alice" && p == "pw1",
   fun u =>
     if u == "alice" then
       some ⟨some "Alice A", some "alice@henry-iam.internal", ["cn=hr,cn=groups,cn=accounts"]⟩
     else none,
   "2026-01-01T08:00:00"⟩

/-- A concrete TOTP subsystem for witnesses: alice is enrolled with secret
SECRET and the verifier accepts exactly 123456 at the current instant. -/
def totpEnvW : TotpEnv :=
  ⟨true, fun u => if u == "alice" then some "SECRET" else none,
   fun s c => s == "SECRET" && c == "123456"⟩

/-- Combined witness environment. -/
def envW : Env := ⟨ldapEnvW, totpEnvW⟩

/-- A directory that rejects every bind (wrong password, locked account,
or unreachable server: with auto_bind all surface as LDAPException). -/
def ldapRejectEnv : LdapEnv := ⟨fun _ _ => false, fun _ => none, "t0"⟩

/-- The pending record employee_login stores for alice in envW. -/
def pendW : PendingAuth :=
  ⟨"alice", "Alice A", "alice@henry-iam.internal", "HR", ["hr"], "2026-01-01T08:00:00"⟩

/-- The same pending record with a creation timestamp two hours in the
past relative to the verification request. -/
def stalePendW : PendingAuth :=
  ⟨"alice", "Alice A", "alice@henry-iam.internal", "HR", ["hr"], "2026-01-01T06:00:00"⟩

/-- A login followed by a second-factor submission. -/
def eventsW : List Event :=
  [Event.loginPost "alice" "pw1" "HR", Event.totpPost "123456"]

/-- C1: whenever the directory bind succeeds, the user entry is found with
parseable group DNs, and the group required for the requested department is
absent from the extracted memberships, authenticate_ldap fails with the
unauthorized error, and the login route leaves no pending_auth record in
the session. -/
theorem C1_unauthorized_no_pending (env : Env) (username password department : String)
    (e : LdapEntry) (gs : List String) (g : String)
    (hstrip : Py.strip username = username)
    (hbind : env.ldap.bindOk username password = true)
    (hentry : env.ldap.entry username = some e)
    (hgroups : e.memberOf.mapM parseGroupName = some gs)
    (hdept : DEPARTMENT_GROUPS.lookup department = some g)
    (habs : g ∉ gs) :
    authenticate_ldap username password department env.ldap = .error .unauthorized ∧
    ∀ s : Session, s.user = none →
      (employee_login_post env s username password department).pending_auth = none := by
  have hauth : authenticate_ldap username password department env.ldap = .error .unauthorized := by
    unfold authenticate_ldap
    rw [hbind]
    simp only [hentry, hgroups, hdept]
    rw [if_neg habs]
    simp
  refine ⟨hauth, ?_⟩
  intro s hs
  unfold employee_login_post
  rw [hs]
  simp only [Option.isSome_none, Bool.false_eq_true, if_false, hstrip]
  by_cases hc : username = "" ∨ password = "" ∨ department = ""
  · rw [if_pos hc]
  · rw [if_neg hc, hauth]

/-- C1 witness: alice binds correctly but holds only the hr group, so
requesting the Admin department is rejected as unauthorized and the login
route stores no pending record. -/
theorem C1_witness :
    authenticate_ldap "alice" "pw1" "Admin" envW.ldap = .error .unauthorized ∧
    (employee_login_post envW initialSession "alice" "pw1" "Admin").pending_auth = none := by
  have h := C1_unauthorized_no_pending envW "alice" "pw1" "Admin"
    ⟨some "Alice A", some "alice@henry-iam.internal", ["cn=hr,cn=groups,cn=accounts"]⟩
    ["hr"] "admins" (by decide) (by decide) (by decide) (by decide) (by decide) (by decide)
  exact ⟨h.1, h.2 initialSession rfl⟩

/-- C4 counterexample: Engineering is not a key of the department mapping,
yet with a failing bind authenticate_ldap reports the directory error, not
the invalid-department error: the directory bind is attempted first, so
the invalid-department failure neither happens here nor precedes the
directory call. -/
theorem C4_counterexample :
    DEPARTMENT_GROUPS.lookup "Engineering" = none ∧
    authenticate_ldap "bob" "pw" "Engineering" ldapRejectEnv = .error .ldapError ∧
    authenticate_ldap "bob" "pw" "Engineering" ldapRejectEnv ≠ .error .invalidDepartment := by
  refine ⟨by decide, by decide, by decide⟩

/-- C4 amended: for a department that is not a key of the mapping,
authenticate_ldap fails with the invalid-department error provided the
directory bind succeeds, the user entry is found and its group DNs parse;
the check runs after the bind and the search, so directory failures
preempt it. -/
theorem C4_invalid_department_after_directory (env : LdapEnv)
    (username password department : String) (e : LdapEntry) (gs : List String)
    (hbind : env.bindOk username password = true)
    (hentry : env.entry username = some e)
    (hgroups : e.memberOf.mapM parseGroupName = some gs)
    (hdept : DEPARTMENT_GROUPS.lookup department = none) :
    authenticate_ldap username password department env = .error .invalidDepartment := by
  unfold authenticate_ldap
  rw [hbind]
  simp only [hentry, hgroups, hdept]
  simp

/-- C4 witness: alice binds correctly, her entry is found, and requesting
the unmapped Engineering department is rejected as invalid. -/
theorem C4_witness :
    authenticate_ldap "alice" "pw1" "Engineering" ldapEnvW = .error .invalidDepartment :=
  C4_invalid_department_after_directory ldapEnvW "alice" "pw1" "Engineering"
    ⟨some "Alice A", some "alice@henry-iam.internal", ["cn=hr,cn=groups,cn=accounts"]⟩
    ["hr"] (by decide) (by decide) (by decide) (by decide)

/-- Two non-empty codes with the same normalization take the same path
through verify_totp_code. -/
theorem verify_totp_code_congr (env : TotpEnv) (u a b : String)
    (ha : a ≠ "") (hb : b ≠ "") (hn : normalizeCode a = normalizeCode b) :
    verify_totp_code env u a = verify_totp_code env u b := by
  unfold verify_totp_code
  rw [if_neg ha, if_neg hb, hn]

/-- Two codes that strip to themselves, are non-empty, and share a
normalization take the same path through the totp_verify route. -/
theorem totp_verify_post_congr (env : Env) (s : Session) (a b : String)
    (hsa : Py.strip a = a) (hsb : Py.strip b = b)
    (ha : a ≠ "") (hb : b ≠ "") (hn : normalizeCode a = normalizeCode b) :
    totp_verify_post env s a = totp_verify_post env s b := by
  unfold totp_verify_post
  cases hp : s.pending_auth with
  | none => rfl
  | some pending =>
    simp only [hsa, hsb]
    rw [if_neg ha, if_neg hb,
        verify_totp_code_congr env.totp pending.username a b ha hb hn]

/-- C8: the submitted codes 123 456, 123-456 and 123456 normalize alike,
so verify_totp_code and the totp_verify route treat the three identically,
for every user, every pending record and every state of the TOTP
collaborator (the point in time is part of the verify oracle). -/
theorem C8_code_normalization (env : TotpEnv) (u : String) :
    verify_totp_code env u "123 456" = verify_totp_code env u "123456" ∧
    verify_totp_code env u "123-456" = verify_totp_code env u "123456" ∧
    ∀ (e : Env) (s : Session),
      totp_verify_post e s "123 456" = totp_verify_post e s "123456" ∧
      totp_verify_post e s "123-456" = totp_verify_post e s "123456" := by
  refine ⟨?_, ?_, fun e s => ⟨?_, ?_⟩⟩
  · exact verify_totp_code_congr env u "123 456" "123456" (by decide) (by decide) (by decide)
  · exact verify_totp_code_congr env u "123-456" "123456" (by decide) (by decide) (by decide)
  · exact totp_verify_post_congr e s "123 456" "123456"
      (by decide) (by decide) (by decide) (by decide) (by decide)
  · exact totp_verify_post_congr e s "123-456" "123456"
      (by decide) (by decide) (by decide) (by decide) (by decide)

/-- C5: whenever verify_totp_code fails, with any of its distinct error
kinds, the totp_verify route leaves the pending record and the rest of the
session untouched, and the four failure kinds named by the claim are
pairwise distinct values. -/
theorem C5_failure_preserves_pending (env : Env) (s : Session) (p : PendingAuth)
    (code : String) (e : TotpError)
    (hp : s.pending_auth = some p)
    (hfail : verify_totp_code env.totp p.username (Py.strip code) = .error e) :
    totp_verify_post env s code = s ∧
    (totp_verify_post env s code).pending_auth = some p ∧
    (TotpError.badFormat ≠ TotpError.notEnrolled ∧
     TotpError.badFormat ≠ TotpError.notConfigured ∧
     TotpError.badFormat ≠ TotpError.wrongCode ∧
     TotpError.notEnrolled ≠ TotpError.notConfigured ∧
     TotpError.notEnrolled ≠ TotpError.wrongCode ∧
     TotpError.notConfigured ≠ TotpError.wrongCode) := by
  have hid : totp_verify_post env s code = s := by
    by_cases hc : Py.strip code = "" <;>
      simp [totp_verify_post, hp, hc, hfail]
  exact ⟨hid, by rw [hid, hp], by decide⟩

/-- C5 witness: a wrong code for alice leaves her pending record in place. -/
theorem C5_witness :
    totp_verify_post envW ⟨some pendW, none⟩ "999999" = ⟨some pendW, none⟩ ∧
    (totp_verify_post envW ⟨some pendW, none⟩ "999999").pending_auth = some pendW ∧
    (TotpError.badFormat ≠ TotpError.notEnrolled ∧
     TotpError.badFormat ≠ TotpError.notConfigured ∧
     TotpError.badFormat ≠ TotpError.wrongCode ∧
     TotpError.notEnrolled ≠ TotpError.notConfigured ∧
     TotpError.notEnrolled ≠ TotpError.wrongCode ∧
     TotpError.notConfigured ≠ TotpError.wrongCode) :=
  C5_failure_preserves_pending envW ⟨some pendW, none⟩ pendW "999999"
    TotpError.wrongCode (by rfl) (by decide)

/-- C6: the totp_verify route never consults the age of the pending
record: the outcome is the same for every creation timestamp, and in
particular a record two hours old, far beyond a few minutes yet within the
eight-hour session lifetime, is still promoted to a full session by a
correct code rather than treated as absent. -/
theorem C6_pending_never_expires :
    (∀ (env : Env) (un fn em dep : String) (gs : List String) (t₁ t₂ c : String),
      ((totp_verify_post env ⟨some ⟨un, fn, em, dep, gs, t₁⟩, none⟩ c).user).isSome =
      ((totp_verify_post env ⟨some ⟨un, fn, em, dep, gs, t₂⟩, none⟩ c).user).isSome) ∧
    ((totp_verify_post envW ⟨some stalePendW, none⟩ "123456").user).isSome = true ∧
    2 * 3600 < PERMANENT_SESSION_LIFETIME := by
  refine ⟨?_, by decide, by decide⟩
  intro env un fn em dep gs t₁ t₂ c
  unfold totp_verify_post
  by_cases hc : Py.strip c = ""
  · simp [hc]
  · simp only [if_neg hc]
    cases hv : verify_totp_code env.totp un (Py.strip c) <;> simp [hv]

/-- The login route never writes the user key. -/
theorem employee_login_post_user (env : Env) (s : Session) (u p d : String) :
    (employee_login_post env s u p d).user = s.user := by
  unfold employee_login_post
  split
  · rfl
  · dsimp only
    split
    · rfl
    · split <;> rfl

/-- A single request sets the user key only from a totp_verify POST whose
code passes verify_totp_code against a pending record already present. -/
theorem step_user_isSome (env : Env) (s : Session) (e : Event)
    (h : ((step env s e).user).isSome = true) :
    s.user.isSome = true ∨
      ∃ c p, e = Event.totpPost c ∧ s.pending_auth = some p ∧
        verify_totp_code env.totp p.username (Py.strip c) = .ok () := by
  cases e with
  | loginGet =>
    left
    have hs : step env s Event.loginGet = employee_login_get s := rfl
    rw [hs] at h
    unfold employee_login_get at h
    by_cases hu : s.user.isSome = true
    · exact hu
    · rw [if_neg hu] at h
      exact h
  | loginPost u p d =>
    left
    have hs : step env s (Event.loginPost u p d) = employee_login_post env s u p d := rfl
    rw [hs, employee_login_post_user] at h
    exact h
  | totpGet => left; exact h
  | totpPost c =>
    have hs : step env s (Event.totpPost c) = totp_verify_post env s c := rfl
    rw [hs] at h
    cases hp : s.pending_auth with
    | none =>
      left
      simp only [totp_verify_post, hp] at h
      exact h
    | some pending =>
      simp only [totp_verify_post, hp] at h
      by_cases hc : Py.strip c = ""
      · rw [if_pos hc] at h
        left
        exact h
      · rw [if_neg hc] at h
        cases hv : verify_totp_code env.totp pending.username (Py.strip c) with
        | ok a =>
          right
          cases a
          exact ⟨c, pending, rfl, rfl, hv⟩
        | error a =>
          left
          simp only [hv] at h
          exact h
  | logout =>
    left
    have hs : step env s Event.logout = logout_route s := rfl
    rw [hs] at h
    simp [logout_route] at h

/-- If running a request sequence from any state sets the user key, either
it was already set, or the sequence contains a totp_verify POST that found
a pending record in place and whose code passed verify_totp_code. -/
theorem run_user_isSome (env : Env) :
    ∀ (events : List Event) (s : Session),
      ((run env s events).user).isSome = true →
      s.user.isSome = true ∨
        ∃ l₁ c l₂ p, events = l₁ ++ Event.totpPost c :: l₂ ∧
          (run env s l₁).pending_auth = some p ∧
          verify_totp_code env.totp p.username (Py.strip c) = .ok () := by
  intro events
  induction events with
  | nil =>
    intro s h
    left
    exact h
  | cons e es ih =>
    intro s h
    rcases ih (step env s e) h with h2 | ⟨l₁, c, l₂, p, hsplit, hpend, hok⟩
    · rcases step_user_isSome env s e h2 with h3 | ⟨c, p, rfl, hpend, hok⟩
      · left
        exact h3
      · right
        exact ⟨[], c, es, p, rfl, hpend, hok⟩
    · right
      refine ⟨e :: l₁, c, l₂, p, ?_, hpend, hok⟩
      rw [hsplit]
      rfl

/-- C2: in every session reachable from the fresh state, the user key is
set only if the request sequence contains a totp_verify POST that was
executed while a pending_auth record was present and whose code passed
verify_totp_code: an authenticated session arises only by promotion of a
pending record after second-factor success. -/
theorem C2_authenticated_only_via_pending (env : Env) (events : List Event)
    (h : ((run env initialSession events).user).isSome = true) :
    ∃ l₁ c l₂ p, events = l₁ ++ Event.totpPost c :: l₂ ∧
      (run env initialSession l₁).pending_auth = some p ∧
      verify_totp_code env.totp p.username (Py.strip c) = .ok () := by
  rcases run_user_isSome env events initialSession h with h1 | h2
  · simp [initialSession] at h1
  · exact h2

/-- C2 witness: a login for alice followed by a correct code authenticates
her, and the decomposition produced by the theorem exists. -/
theorem C2_witness :
    ∃ l₁ c l₂ p, eventsW = l₁ ++ Event.totpPost c :: l₂ ∧
      (run envW initialSession l₁).pending_auth = some p ∧
      verify_totp_code envW.totp p.username (Py.strip c) = .ok () :=
  C2_authenticated_only_via_pending envW eventsW (by decide)

/-- The precedence loop of get_primary_role computes the first precedence
entry present in the role set, the find-first description of the spec. -/
theorem get_primary_role_eq_find (roles prec : List String) :
    get_primary_role roles prec = prec.find? (fun r => roles.contains r) := by
  induction prec with
  | nil => rfl
  | cons r rest ih =>
    simp only [get_primary_role, List.find?]
    by_cases h : r ∈ roles
    · rw [if_pos h]
      have hc : roles.contains r = true := List.elem_iff.mpr h
      rw [hc]
    · rw [if_neg h]
      have hc : roles.contains r = false := by
        rw [Bool.eq_false_iff]
        intro hc
        exact h (List.elem_iff.mp hc)
      rw [hc]
      exact ih

/-- When no precedence entry is held, the loop returns none. -/
theorem get_primary_role_eq_none (roles : List String) :
    ∀ prec : List String, (∀ r ∈ prec, r ∉ roles) → get_primary_role roles prec = none := by
  intro prec
  induction prec with
  | nil => intro _; rfl
  | cons r rest ih =>
    intro h
    simp only [get_primary_role]
    rw [if_neg (h r (by simp))]
    exact ih (fun x hx => h x (by simp [hx]))

/-- C3: the precedence loop returns the first RolePrecedence entry present
in the role set; the role set holding sales and hr selects hr and routes
to the HR dashboard backend; a valid request whose non-empty role set
meets no precedence entry ends in the unrecognized-role rejection, and a
valid request with an empty role set in the distinct no-roles rejection. -/
theorem C3_primary_role_selection :
    (∀ roles prec : List String,
      get_primary_role roles prec = prec.find? (fun r => roles.contains r)) ∧
    get_primary_role ["sales", "hr"] ROLE_PRECEDENCE = some "hr" ∧
    route_to_dashboard ⟨some "u@x.com", some "u", some "sales,hr"⟩ =
      RouteOutcome.forward "http://hr-dashboard:8501" "hr" ["sales", "hr"] ∧
    (∀ (h : Headers) (roles : List String),
      validate_headers h = true →
      extract_roles (h.groups.getD "") = .ok roles →
      roles ≠ [] →
      (∀ r ∈ ROLE_PRECEDENCE, r ∉ roles) →
      route_to_dashboard h = RouteOutcome.unrecognizedRole) ∧
    (∀ h : Headers,
      validate_headers h = true →
      extract_roles (h.groups.getD "") = .ok [] →
      route_to_dashboard h = RouteOutcome.noRolesAssigned) ∧
    RouteOutcome.unrecognizedRole ≠ RouteOutcome.noRolesAssigned := by
  refine ⟨get_primary_role_eq_find, by decide, by decide, ?_, ?_, by decide⟩
  · intro h roles hv hroles hne hnone
    unfold route_to_dashboard
    rw [hv]
    simp only [hroles]
    rw [if_neg hne, get_primary_role_eq_none roles ROLE_PRECEDENCE hnone]
    simp
  · intro h hv hroles
    unfold route_to_dashboard
    rw [hv]
    simp [hroles]

/-- C3 witness: a contractor role is non-empty but matches no precedence
entry, so the request ends in the unrecognized-role rejection. -/
theorem C3_witness :
    route_to_dashboard ⟨some "u@x.com", some "u", some "contractor"⟩ =
      RouteOutcome.unrecognizedRole :=
  C3_primary_role_selection.2.2.2.1 ⟨some "u@x.com", some "u", some "contractor"⟩
    ["contractor"] (by decide) (by decide) (by decide) (by decide)

/-- Every survivor of the per-entry normalization is the lower-cased strip
of some raw entry whose strip is non-empty. -/
theorem mem_filterMap_normEntry {l : List String} {r : String}
    (h : r ∈ l.filterMap normEntry) :
    ∃ raw, Py.strip raw ≠ "" ∧ r = Py.lower (Py.strip raw) := by
  rcases List.mem_filterMap.mp h with ⟨raw, _, hn⟩
  unfold normEntry at hn
  by_cases he : Py.strip raw = ""
  · rw [if_pos he] at hn
    exact absurd hn (by simp)
  · rw [if_neg he] at hn
    exact ⟨raw, he, (Option.some_inj.mp hn).symm⟩

/-- A kept normalization survivor names its raw entry. -/
theorem normEntry_some {raw v : String} (h : normEntry raw = some v) :
    Py.strip raw ≠ "" ∧ v = Py.lower (Py.strip raw) := by
  unfold normEntry at h
  by_cases he : Py.strip raw = ""
  · rw [if_pos he] at h
    exact absurd h (by simp)
  · rw [if_neg he] at h
    exact ⟨he, (Option.some_inj.mp h).symm⟩

/-- Every role the comprehension returns is the lower-cased strip of some
raw string entry whose strip is non-empty. -/
theorem rolesComp_mem :
    ∀ {items : List JsonVal} {out : List String} {r : String},
      rolesComp items = .ok out → r ∈ out →
      ∃ raw, Py.strip raw ≠ "" ∧ r = Py.lower (Py.strip raw) := by
  intro items
  induction items with
  | nil =>
    intro out r h hr
    simp only [rolesComp] at h
    injection h with h2
    subst h2
    exact absurd hr (by simp)
  | cons v rest ih =>
    intro out r h hr
    cases v with
    | str role =>
      simp only [rolesComp] at h
      cases hrc : rolesComp rest with
      | error e => cases hn : normEntry role <;> simp [hrc, hn] at h
      | ok tail =>
        cases hn : normEntry role with
        | some w =>
          simp only [hrc, hn] at h
          injection h with h2
          subst h2
          rcases List.mem_cons.mp hr with h3 | h3
          · subst h3
            rcases normEntry_some hn with ⟨h4, h5⟩
            exact ⟨role, h4, h5⟩
          · exact ih hrc h3
        | none =>
          simp only [hrc, hn] at h
          injection h with h2
          subst h2
          exact ih hrc hr
    | num => simp [rolesComp] at h
    | bool b => simp [rolesComp] at h
    | null => simp [rolesComp] at h
    | arr items2 => simp [rolesComp] at h
    | obj members => simp [rolesComp] at h

/-- C7: every role produced by extract_roles, from either input shape, is
the trimmed lower-cased form of a raw entry whose trimmed form is
non-empty (so blank entries are discarded), and the comma-separated header
Admin, Sales and the JSON array of Admin and Sales both extract to the
roles admin and sales. -/
theorem C7_role_extraction_normalizes :
    (∀ (hdr r : String) (roles : List String),
      extract_roles hdr = .ok roles → r ∈ roles →
      ∃ raw, Py.strip raw ≠ "" ∧ r = Py.lower (Py.strip raw)) ∧
    extract_roles "Admin, Sales" = .ok ["admin", "sales"] ∧
    extract_roles "[\"Admin\",\"Sales\"]" = .ok ["admin", "sales"] := by
  refine ⟨?_, by decide, by decide⟩
  intro hdr r roles h hr
  unfold extract_roles at h
  by_cases h0 : hdr = ""
  · rw [if_pos h0] at h
    injection h with h2
    subst h2
    exact absurd hr (by simp)
  · rw [if_neg h0] at h
    by_cases hb : Py.startsWithChar '[' hdr = true
    · rw [if_pos hb] at h
      cases hj : jsonLoads hdr with
      | none =>
        rw [hj] at h
        injection h with h2
        subst h2
        exact absurd hr (by simp)
      | some v =>
        cases v with
        | str s =>
          simp only [hj] at h
          exact rolesComp_mem h hr
        | num => simp [hj] at h
        | bool b => simp [hj] at h
        | null => simp [hj] at h
        | arr items =>
          simp only [hj] at h
          exact rolesComp_mem h hr
        | obj members =>
          simp only [hj] at h
          exact rolesComp_mem h hr
    · rw [if_neg hb] at h
      injection h with h2
      subst h2
      exact mem_filterMap_normEntry hr

/-- C7 witness: the extracted role admin is the trimmed lower-cased form
of a raw entry of the comma-separated header. -/
theorem C7_witness :
    ∃ raw, Py.strip raw ≠ "" ∧ "admin" = Py.lower (Py.strip raw) :=
  C7_role_extraction_normalizes.1 "Admin, Sales" "admin" ["admin", "sales"]
    (by decide) (by decide)

/-- C10: a roles header that opens a bracket but on which json.loads
raises JSONDecodeError extracts to the empty role list rather than
raising, so a request whose identity headers are otherwise valid is
rejected with the 403 no-roles outcome — a different outcome from the 401
invalid-headers rejection and from the unhandled-exception response. -/
theorem C10_malformed_json_means_no_roles (h : Headers) (g : String)
    (hv : validate_headers h = true)
    (hg : h.groups = some g)
    (hb : Py.startsWithChar '[' g = true)
    (hj : (jsonLoads g).isNone = true) :
    extract_roles g = .ok [] ∧
    route_to_dashboard h = RouteOutcome.noRolesAssigned ∧
    RouteOutcome.noRolesAssigned ≠ RouteOutcome.unauthorized ∧
    RouteOutcome.noRolesAssigned ≠ RouteOutcome.unhandledException := by
  have hj2 : jsonLoads g = none := Option.isNone_iff_eq_none.mp hj
  have hgne : g ≠ "" := by
    intro h0
    rw [h0] at hb
    exact absurd hb (by decide)
  have he : extract_roles g = .ok [] := by
    unfold extract_roles
    rw [if_neg hgne, if_pos hb, hj2]
  refine ⟨he, ?_, by decide, by decide⟩
  unfold route_to_dashboard
  rw [hv]
  simp [hg, he]

/-- C10 witness: the header value that opens a bracket around a bare word
is not JSON, so the request is rejected as having no roles. -/
theorem C10_witness :
    extract_roles "[Admin" = .ok [] ∧
    route_to_dashboard ⟨some "x@y.com", some "x", some "[Admin"⟩ =
      RouteOutcome.noRolesAssigned ∧
    RouteOutcome.noRolesAssigned ≠ RouteOutcome.unauthorized ∧
    RouteOutcome.noRolesAssigned ≠ RouteOutcome.unhandledException :=
  C10_malformed_json_means_no_roles ⟨some "x@y.com", some "x", some "[Admin"⟩
    "[Admin" (by decide) rfl (by decide) (by decide)

/-- C9: the forwarding result of a routable request is a function of the
single attempt-zero backend interaction alone, so no retry can influence
it; a connection failure is relayed as 503, a timeout as 504, and any
other failure as 500, three distinct statuses; and the built request
carries the bounded 30-second timeout. -/
theorem C9_forwarding_errors :
    (∀ (h : Headers) (path : String) (b b2 : ForwardRequest → Nat → BackendResult),
      (∀ req, b req 0 = b2 req 0) →
      routeAndForward h path b = routeAndForward h path b2) ∧
    (∀ (h : Headers) (path target pr : String) (rs : List String)
        (b : ForwardRequest → Nat → BackendResult),
      route_to_dashboard h = RouteOutcome.forward target pr rs →
      routeAndForward h path b = forwardStatus (b (buildForwardRequest target path) 0)) ∧
    forwardStatus BackendResult.connectionError = 503 ∧
    forwardStatus BackendResult.timeout = 504 ∧
    forwardStatus BackendResult.otherError = 500 ∧
    (503 ≠ 504 ∧ 503 ≠ 500 ∧ 504 ≠ 500) ∧
    (∀ target path : String, (buildForwardRequest target path).timeoutSeconds = 30) := by
  refine ⟨?_, ?_, rfl, rfl, rfl, by decide, fun _ _ => rfl⟩
  · intro h path b b2 hb
    unfold routeAndForward
    cases route_to_dashboard h with
    | forward target pr rs => simp [hb]
    | unauthorized => rfl
    | noRolesAssigned => rfl
    | unrecognizedRole => rfl
    | serviceConfigError => rfl
    | unhandledException => rfl
  · intro h path target pr rs b hroute
    unfold routeAndForward
    rw [hroute]

/-- C9 witness: a sales request whose backend refuses the connection is
answered with 503. -/
theorem C9_witness :
    routeAndForward ⟨some "u@x.com", some "u", some "sales"⟩ "app"
        (fun _ _ => BackendResult.connectionError) =
      forwardStatus ((fun (_ : ForwardRequest) (_ : Nat) => BackendResult.connectionError)
        (buildForwardRequest "http://sales-dashboard:8503" "app") 0) :=
  C9_forwarding_errors.2.1 ⟨some "u@x.com", some "u", some "sales"⟩ "app"
    "http://sales-dashboard:8503" "sales" ["sales"]
    (fun _ _ => BackendResult.connectionError) (by decide)
